import Mathlib

/-!
Verification of the TempTower controller (TempTowerController.py).

The controller state, the preset table, the preset loader, the dialog
handler and the post-process entry point are embedded as pure Lean
functions.  Python floats are modelled as rationals, Python exceptions as
explicit result constructors carrying the state at the moment the
exception escapes, and the uninitialised attribute of the object
(sectionLayers, never assigned by the constructor) as an Option.
External collaborators (the float-string parser of the host language and
the post-processing script) enter as function parameters.
-/

namespace TempTower

/-- Python exceptions that can escape the embedded methods. -/
inductive PyError where
  | valueError
  | zeroDivisionError
  | attributeError
deriving DecidableEq

/-- The mutable attributes of a TempTowerController object.  The five
string fields model the dialog-bound properties with their class-level
defaults; startTemperature, temperatureChange and baseLayers are set by
the constructor; sectionLayers is never set by the constructor, so it is
an Option that starts out none. -/
structure ControllerState where
  startTemperatureStr : String
  endTemperatureStr : String
  temperatureChangeStr : String
  materialLabelStr : String
  towerDescriptionStr : String
  startTemperature : ℚ
  temperatureChange : ℚ
  baseLayers : ℤ
  sectionLayers : Option ℤ
deriving DecidableEq

/-- Result of running a method that may let a Python exception escape;
the raised constructor records the object state at that moment. -/
inductive PyResult (α : Type) where
  | ok (a : α)
  | raised (e : PyError) (st : ControllerState)
deriving DecidableEq

/-- State of a freshly constructed controller. -/
def initState : ControllerState :=
  { startTemperatureStr := "220"
    endTemperatureStr := "180"
    temperatureChangeStr := "-5"
    materialLabelStr := ""
    towerDescriptionStr := ""
    startTemperature := 0
    temperatureChange := 0
    baseLayers := 0
    sectionLayers := none }

def openScadFilename : String := "temptower.scad"

def nominalBaseHeight : ℚ := 0.8

def nominalSectionHeight : ℚ := 8.0

/-- One row of the preset table; every field is optional because the
loader guards each access with a KeyError handler. -/
structure PresetEntry where
  filename : Option String
  startValue : Option ℚ
  changeValue : Option ℚ
deriving DecidableEq

/-- The static preset table of the controller. -/
def presetTables : List (String × PresetEntry) :=
  [ ("aba", ⟨some "temptower-aba.stl", some 260, some 5⟩)
  , ("abs", ⟨some "temptower-abs.stl", some 250, some 5⟩)
  , ("nylon", ⟨some "temptower-nylon.stl", some 260, some 5⟩)
  , ("pc", ⟨some "temptower-pc.stl", some 310, some 5⟩)
  , ("petg", ⟨some "temptower-petg.stl", some 250, some 5⟩)
  , ("pla", ⟨some "temptower-pla.stl", some 230, some 5⟩)
  , ("pla+", ⟨some "temptower-pla+.stl", some 230, some 5⟩)
  , ("tpu", ⟨some "temptower-tpu.stl", some 230, some 5⟩) ]

/-- Failures of the preset lookup, mirroring the two kinds of logged
message in the loader. -/
inductive PresetError where
  | unknownPreset (name : String)
  | incompleteEntry (name field : String)
deriving DecidableEq

/-- Number of base layers computed by both generate paths:
math.ceil(nominalBaseHeight / layerHeight). -/
def baseLayersFor (layerHeight : ℚ) : ℤ := ⌈nominalBaseHeight / layerHeight⌉

/-- Number of layers per section computed by both generate paths:
math.ceil(nominalSectionHeight / layerHeight). -/
def sectionLayersFor (layerHeight : ℚ) : ℤ := ⌈nominalSectionHeight / layerHeight⌉

/-- Outcome of the preset loader: an early logged return, an uncaught
exception, or success with the STL file name handed to the load
callback.  Both non-ok constructors record the state left behind. -/
inductive LoadOutcome where
  | aborted (err : PresetError) (st : ControllerState)
  | raised (e : PyError) (st : ControllerState)
  | ok (st : ControllerState) (stlFileName : String)
deriving DecidableEq

/-- The preset loader.  Each table access is guarded: a missing key logs
and returns.  The start value is assigned to the state before the change
value is looked up, exactly as the two assignment statements appear in
sequence in the method.  Dividing by a zero layer height raises
ZeroDivisionError before either layer count is assigned. -/
def loadPreset (table : List (String × PresetEntry)) (presetName : String)
    (layerHeight : ℚ) (st : ControllerState) : LoadOutcome :=
  match table.lookup presetName with
  | none => .aborted (.unknownPreset presetName) st
  | some presetTable =>
    match presetTable.filename with
    | none => .aborted (.incompleteEntry presetName "filename") st
    | some stlFileName =>
      match presetTable.startValue with
      | none => .aborted (.incompleteEntry presetName "start value") st
      | some sv =>
        match presetTable.changeValue with
        | none => .aborted (.incompleteEntry presetName "change value")
            { st with startTemperature := sv }
        | some cv =>
          if layerHeight = 0 then
            .raised .zeroDivisionError
              { st with startTemperature := sv, temperatureChange := cv }
          else
            .ok { st with
                    startTemperature := sv
                    temperatureChange := cv
                    baseLayers := baseLayersFor layerHeight
                    sectionLayers := some (sectionLayersFor layerHeight) }
              stlFileName

/-- The pure lookup contract extracted from the four guarded table
accesses at the top of the preset loader. -/
def lookupPreset (table : List (String × PresetEntry)) (presetName : String) :
    Except PresetError (String × ℚ × ℚ) :=
  match table.lookup presetName with
  | none => .error (.unknownPreset presetName)
  | some presetTable =>
    match presetTable.filename with
    | none => .error (.incompleteEntry presetName "filename")
    | some stlFileName =>
      match presetTable.startValue with
      | none => .error (.incompleteEntry presetName "start value")
      | some sv =>
        match presetTable.changeValue with
        | none => .error (.incompleteEntry presetName "change value")
        | some cv => .ok (stlFileName, sv, cv)

/-- A scalar in the parameter mapping sent to OpenSCAD. -/
inductive ScadValue where
  | num (q : ℚ)
  | str (s : String)
deriving DecidableEq

/-- The dialog handler.  The three numeric dialog strings are parsed
first (ValueError on failure), the layer counts are computed (raising
ZeroDivisionError on a zero layer height before any state is assigned),
the change is sign-corrected against start and end, the schedule fields
are stored, and the OpenSCAD parameter mapping is produced in the order
the method builds it. -/
def dialogAccepted (parse : String → Option ℚ) (layerHeight : ℚ)
    (st : ControllerState) :
    PyResult (ControllerState × String × List (String × ScadValue)) :=
  match parse st.startTemperatureStr with
  | none => .raised .valueError st
  | some startTemperature =>
    match parse st.endTemperatureStr with
    | none => .raised .valueError st
    | some endTemperature =>
      match parse st.temperatureChangeStr with
      | none => .raised .valueError st
      | some requestedChange =>
        if layerHeight = 0 then .raised .zeroDivisionError st
        else
          let baseHeight : ℚ := (baseLayersFor layerHeight : ℚ) * layerHeight
          let sectionHeight : ℚ := (sectionLayersFor layerHeight : ℚ) * layerHeight
          let temperatureChange : ℚ :=
            if startTemperature ≤ endTemperature then |requestedChange|
            else -|requestedChange|
          .ok
            ( { st with
                  startTemperature := startTemperature
                  temperatureChange := temperatureChange
                  baseLayers := baseLayersFor layerHeight
                  sectionLayers := some (sectionLayersFor layerHeight) }
            , openScadFilename
            , [ ("Starting_Value", ScadValue.num startTemperature)
              , ("Ending_Value", ScadValue.num endTemperature)
              , ("Value_Change", ScadValue.num temperatureChange)
              , ("Base_Height", ScadValue.num baseHeight)
              , ("Section_Height", ScadValue.num sectionHeight)
              , ("Column_Label", ScadValue.str st.materialLabelStr)
              , ("Tower_Label", ScadValue.str st.towerDescriptionStr) ] )

/-- The post-process entry point.  It re-parses two dialog strings
(discarding the values), reads the possibly missing sectionLayers
attribute, and delegates to the external post-processing script with the
stored schedule.  The script itself is a parameter, since only its call
site is part of this source file. -/
def postProcess {γ : Type} (execute : γ → ℚ → ℚ → ℤ → ℤ → γ)
    (parse : String → Option ℚ) (st : ControllerState) (gcode : γ) :
    PyResult γ :=
  match parse st.startTemperatureStr with
  | none => .raised .valueError st
  | some _ =>
    match parse st.temperatureChangeStr with
    | none => .raised .valueError st
    | some _ =>
      match st.sectionLayers with
      | none => .raised .attributeError st
      | some sl =>
        .ok (execute gcode st.startTemperature st.temperatureChange sl st.baseLayers)

/-- Modelled from the spec: the schedule record consumed by the
Instruction Rewriter (data model, section 3) — the script
TempTower_PostProcessing that implements the Rewriter is not under src,
only its call site is.  baseLayers is a non-negative integer,
sectionLayers a positive integer, temperatures are real numbers. -/
structure TowerSchedule where
  baseLayers : ℕ
  sectionLayers : ℕ
  startTemperature : ℚ
  temperatureChange : ℚ
deriving DecidableEq

/-- Modelled from the spec: one line of the layer-delimited instruction
stream — a recognized layer-boundary marker, any other original line, or
an injected temperature-set instruction.  The exact marker text is left
abstract (the spec leaves it open), so markers are a constructor. -/
inductive GLine where
  | boundary (payload : String)
  | plain (payload : String)
  | tempSet (t : ℚ)
deriving DecidableEq

def isBoundary : GLine → Bool
  | .boundary _ => true
  | _ => false

def isTempSet : GLine → Bool
  | .tempSet _ => true
  | _ => false

/-- Number of recognized layer-boundary markers in a stream. -/
def layerCount (stream : List GLine) : ℕ := stream.countP isBoundary

/-- Temperature of a section: startTemperature plus the section index
times the per-section change. -/
def sectionTemperature (sched : TowerSchedule) (sectionIndex : ℕ) : ℚ :=
  sched.startTemperature + (sectionIndex : ℚ) * sched.temperatureChange

/-- Modelled from the spec: the layer-counting scan of the Rewriter
(section 4.3).  currentLayerIndex starts at 0 and is incremented once
per boundary marker; when the marker starts a layer with index
baseLayers + sectionIndex * sectionLayers for some sectionIndex ≥ 0, one
temperature-set instruction carrying that section temperature is emitted
immediately after the marker; every other line passes through
unchanged. -/
def rewriteAux (sched : TowerSchedule) : List GLine → ℕ → List GLine
  | [], _ => []
  | .boundary p :: rest, idx =>
    if sched.baseLayers ≤ idx ∧ (idx - sched.baseLayers) % sched.sectionLayers = 0 then
      .boundary p ::
        .tempSet (sectionTemperature sched ((idx - sched.baseLayers) / sched.sectionLayers)) ::
          rewriteAux sched rest (idx + 1)
    else
      .boundary p :: rewriteAux sched rest (idx + 1)
  | .plain p :: rest, idx => .plain p :: rewriteAux sched rest idx
  | .tempSet t :: rest, idx => .tempSet t :: rewriteAux sched rest idx

inductive RewriteError where
  | malformedInstructionStream
deriving DecidableEq

/-- Modelled from the spec: the Rewriter entry point (section 4.3).  A
stream with no recognizable layer-boundary marker at all fails with
MalformedInstructionStream; otherwise the scan runs from layer index
0. -/
def rewrite (sched : TowerSchedule) (stream : List GLine) :
    Except RewriteError (List GLine) :=
  if layerCount stream = 0 then .error .malformedInstructionStream
  else .ok (rewriteAux sched stream 0)

/-- Number of layer indices in [idx, idx + n) at which the Rewriter
injects an instruction, for a schedule with base b and section size s. -/
def countHits (b s : ℕ) : ℕ → ℕ → ℕ
  | _, 0 => 0
  | idx, n + 1 =>
    (if b ≤ idx ∧ (idx - b) % s = 0 then 1 else 0) + countHits b s (idx + 1) n

/-- The schedule of the concrete scenario of the spec: layer height 0.2,
base of 4 layers, sections of 40 layers, start 230, change -5. -/
def schedule84 : TowerSchedule := ⟨4, 40, 230, -5⟩

/-- A stream of 84 layers (84 boundary markers, nothing else). -/
def stream84 : List GLine := List.replicate 84 (GLine.boundary "layer")

/-- The rewritten 84-layer stream: a temperature-set instruction with
230 right after the marker of layer 4 and one with 225 right after the
marker of layer 44, and no other change. -/
def expected84 : List GLine :=
  List.replicate 5 (GLine.boundary "layer") ++ GLine.tempSet 230 ::
    (List.replicate 40 (GLine.boundary "layer") ++ GLine.tempSet 225 ::
      List.replicate 39 (GLine.boundary "layer"))

/-- A concrete stand-in for the float parser of the host language on the
handful of numeric strings used in witnesses; any non-listed string
fails to parse. -/
def parseFixture : String → Option ℚ
  | "220" => some 220
  | "180" => some 180
  | "-5" => some (-5)
  | "200" => some 200
  | "5" => some 5
  | _ => none

/-- A dialog state with equal start and end temperatures and a positive
requested change. -/
def cexState3 : ControllerState :=
  { initState with
      startTemperatureStr := "200"
      endTemperatureStr := "200"
      temperatureChangeStr := "5" }

/-- The stored temperature change of a successful dialogAccepted run. -/
def resultTemperatureChange
    (r : PyResult (ControllerState × String × List (String × ScadValue))) : Option ℚ :=
  match r with
  | .ok (st, _, _) => some st.temperatureChange
  | .raised _ _ => none

/-- A table whose single entry lacks its change value. -/
def cexTable5 : List (String × PresetEntry) :=
  [("x", ⟨some "f.stl", some 200, none⟩)]

deriving instance DecidableEq for Except

theorem rewriteAux_length (sched : TowerSchedule) :
    ∀ (lines : List GLine) (idx : ℕ),
      (rewriteAux sched lines idx).length =
        lines.length + countHits sched.baseLayers sched.sectionLayers idx (layerCount lines) := by
  intro lines
  induction lines with
  | nil => intro idx; simp [rewriteAux, layerCount, countHits]
  | cons l rest ih =>
    intro idx
    cases l with
    | boundary p =>
      have hc : layerCount (GLine.boundary p :: rest) = layerCount rest + 1 := by
        simp [layerCount, List.countP_cons, isBoundary]
      rw [hc]
      by_cases h : sched.baseLayers ≤ idx ∧ (idx - sched.baseLayers) % sched.sectionLayers = 0
      · simp only [rewriteAux, if_pos h, List.length_cons, ih, countHits, if_pos h]
        omega
      · simp only [rewriteAux, if_neg h, List.length_cons, ih, countHits, if_neg h]
        omega
    | plain p =>
      have hc : layerCount (GLine.plain p :: rest) = layerCount rest := by
        simp [layerCount, List.countP_cons, isBoundary]
      rw [hc]
      simp only [rewriteAux, List.length_cons, ih]
      omega
    | tempSet t =>
      have hc : layerCount (GLine.tempSet t :: rest) = layerCount rest := by
        simp [layerCount, List.countP_cons, isBoundary]
      rw [hc]
      simp only [rewriteAux, List.length_cons, ih]
      omega

theorem rewriteAux_countTempSet (sched : TowerSchedule) :
    ∀ (lines : List GLine) (idx : ℕ),
      (rewriteAux sched lines idx).countP isTempSet =
        lines.countP isTempSet + countHits sched.baseLayers sched.sectionLayers idx (layerCount lines) := by
  intro lines
  induction lines with
  | nil => intro idx; simp [rewriteAux, layerCount, countHits]
  | cons l rest ih =>
    intro idx
    cases l with
    | boundary p =>
      have hc : layerCount (GLine.boundary p :: rest) = layerCount rest + 1 := by
        simp [layerCount, List.countP_cons, isBoundary]
      rw [hc]
      by_cases h : sched.baseLayers ≤ idx ∧ (idx - sched.baseLayers) % sched.sectionLayers = 0
      · simp only [rewriteAux, if_pos h, List.countP_cons, ih, countHits, if_pos h,
          isTempSet, isBoundary]
        simp
        omega
      · simp only [rewriteAux, if_neg h, List.countP_cons, ih, countHits, if_neg h,
          isTempSet, isBoundary]
        simp

    | plain p =>
      have hc : layerCount (GLine.plain p :: rest) = layerCount rest := by
        simp [layerCount, List.countP_cons, isBoundary]
      rw [hc]
      simp only [rewriteAux, List.countP_cons, ih, isTempSet]
      simp
    | tempSet t =>
      have hc : layerCount (GLine.tempSet t :: rest) = layerCount rest := by
        simp [layerCount, List.countP_cons, isBoundary]
      rw [hc]
      simp only [rewriteAux, List.countP_cons, ih, isTempSet]
      simp
      omega

theorem countHits_succ_right (b s : ℕ) :
    ∀ (n idx : ℕ),
      countHits b s idx (n + 1) =
        countHits b s idx n + (if b ≤ idx + n ∧ (idx + n - b) % s = 0 then 1 else 0) := by
  intro n
  induction n with
  | zero => intro idx; simp [countHits]
  | succ m ih =>
    intro idx
    have e : idx + 1 + m = idx + (m + 1) := by omega
    show (if b ≤ idx ∧ (idx - b) % s = 0 then 1 else 0) + countHits b s (idx + 1) (m + 1) =
      countHits b s idx (m + 1) +
        (if b ≤ idx + (m + 1) ∧ (idx + (m + 1) - b) % s = 0 then 1 else 0)
    rw [ih (idx + 1), e, ← Nat.add_assoc]
    conv_rhs => rw [countHits]

/-- Closed form of the injection count from layer index 0: for a stream
of L layers there is one injection for every section start strictly
below L, that is ceil of (L - b) over s many when L exceeds b. -/
theorem countHits_closed (b s : ℕ) :
    ∀ L : ℕ, countHits b s 0 L = if b < L then (L - b - 1) / s + 1 else 0 := by
  intro L
  induction L with
  | zero => simp [countHits]
  | succ L ih =>
    rw [countHits_succ_right, ih]
    rcases lt_trichotomy L b with h | h | h
    · have h1 : ¬ b < L := by omega
      have h2 : ¬ b < L + 1 := by omega
      have h3 : ¬ (b ≤ 0 + L ∧ (0 + L - b) % s = 0) := fun hcon => absurd hcon.1 (by omega)
      rw [if_neg h1, if_neg h2, if_neg h3]
    · subst h
      have h1 : ¬ L < L := by omega
      have h2 : L < L + 1 := by omega
      have h3 : L ≤ 0 + L ∧ (0 + L - L) % s = 0 := ⟨by omega, by simp⟩
      rw [if_neg h1, if_pos h2, if_pos h3]
      simp
    · have h2 : b < L + 1 := by omega
      rw [if_pos h, if_pos h2]
      have e3 : 0 + L - b = L - b := by omega
      rw [e3]
      have e4 : L + 1 - b - 1 = L - b := by omega
      rw [e4]
      have hsucc : (L - b) / s = (L - b - 1) / s + if s ∣ L - b then 1 else 0 := by
        have e5 : L - b - 1 + 1 = L - b := by omega
        calc (L - b) / s = (L - b - 1 + 1) / s := by rw [e5]
          _ = (L - b - 1) / s + if s ∣ L - b - 1 + 1 then 1 else 0 := Nat.succ_div _ _
          _ = (L - b - 1) / s + if s ∣ L - b then 1 else 0 := by rw [e5]
      rw [hsucc]
      by_cases hd : s ∣ L - b
      · have hm : (L - b) % s = 0 := Nat.mod_eq_zero_of_dvd hd
        rw [if_pos hd, if_pos (⟨by omega, hm⟩ : b ≤ 0 + L ∧ (L - b) % s = 0)]
      · have hm : ¬ (L - b) % s = 0 := fun hc => hd (Nat.dvd_of_mod_eq_zero hc)
        rw [if_neg hd, if_neg (fun hc => hm hc.2 : ¬ (b ≤ 0 + L ∧ (L - b) % s = 0))]

theorem loadPreset_complete {table : List (String × PresetEntry)} {name fn : String}
    {sv cv : ℚ} (lh : ℚ) (st : ControllerState)
    (hl : table.lookup name = some ⟨some fn, some sv, some cv⟩) :
    loadPreset table name lh st =
      if lh = 0 then
        .raised .zeroDivisionError { st with startTemperature := sv, temperatureChange := cv }
      else
        .ok { st with
                startTemperature := sv
                temperatureChange := cv
                baseLayers := baseLayersFor lh
                sectionLayers := some (sectionLayersFor lh) } fn := by
  unfold loadPreset
  rw [hl]

theorem loadPreset_ok_elim {table : List (String × PresetEntry)} {name fn : String}
    {lh : ℚ} {st st2 : ControllerState}
    (h : loadPreset table name lh st = .ok st2 fn) :
    st2.baseLayers = baseLayersFor lh ∧ st2.sectionLayers = some (sectionLayersFor lh) := by
  unfold loadPreset at h
  repeat' split at h
  all_goals simp_all
  all_goals (obtain ⟨h1, h2⟩ := h; subst h1; simp)

theorem dialogAccepted_ok_elim {parse : String → Option ℚ} {lh : ℚ}
    {st st2 : ControllerState} {fn : String} {ps : List (String × ScadValue)}
    (h : dialogAccepted parse lh st = .ok (st2, fn, ps)) :
    st2.baseLayers = baseLayersFor lh ∧ st2.sectionLayers = some (sectionLayersFor lh) := by
  unfold dialogAccepted at h
  repeat' split at h
  all_goals simp_all
  all_goals (obtain ⟨h1, h2⟩ := h; subst h1; simp)

/-- C2: for every layer height strictly greater than 0, both generate
paths compute baseLayers = ceil(0.8 / layerHeight) and sectionLayers =
ceil(8.0 / layerHeight); both counts are at least 1, and each count
times the layer height is at least the corresponding nominal height, so
neither zone is ever shorter than its nominal height. -/
theorem claim2_layer_counts (lh : ℚ) (hlh : 0 < lh) :
    baseLayersFor lh = ⌈nominalBaseHeight / lh⌉ ∧
    sectionLayersFor lh = ⌈nominalSectionHeight / lh⌉ ∧
    1 ≤ baseLayersFor lh ∧ 1 ≤ sectionLayersFor lh ∧
    nominalBaseHeight ≤ (baseLayersFor lh : ℚ) * lh ∧
    nominalSectionHeight ≤ (sectionLayersFor lh : ℚ) * lh ∧
    (∀ (table : List (String × PresetEntry)) (name : String)
       (st st2 : ControllerState) (fn : String),
       loadPreset table name lh st = .ok st2 fn →
       st2.baseLayers = baseLayersFor lh ∧ st2.sectionLayers = some (sectionLayersFor lh)) ∧
    (∀ (parse : String → Option ℚ) (st st2 : ControllerState) (fn : String)
       (ps : List (String × ScadValue)),
       dialogAccepted parse lh st = .ok (st2, fn, ps) →
       st2.baseLayers = baseLayersFor lh ∧ st2.sectionLayers = some (sectionLayersFor lh)) := by
  have hb0 : (0 : ℚ) < nominalBaseHeight := by norm_num [nominalBaseHeight]
  have hs0 : (0 : ℚ) < nominalSectionHeight := by norm_num [nominalSectionHeight]
  have hbpos : 0 < nominalBaseHeight / lh := div_pos hb0 hlh
  have hspos : 0 < nominalSectionHeight / lh := div_pos hs0 hlh
  refine ⟨rfl, rfl, ?_, ?_, ?_, ?_, ?_, ?_⟩
  · have := Int.ceil_pos.mpr hbpos
    unfold baseLayersFor
    omega
  · have := Int.ceil_pos.mpr hspos
    unfold sectionLayersFor
    omega
  · calc nominalBaseHeight = nominalBaseHeight / lh * lh :=
        (div_mul_cancel₀ _ (ne_of_gt hlh)).symm
      _ ≤ (⌈nominalBaseHeight / lh⌉ : ℚ) * lh :=
        mul_le_mul_of_nonneg_right (Int.le_ceil _) hlh.le
  · calc nominalSectionHeight = nominalSectionHeight / lh * lh :=
        (div_mul_cancel₀ _ (ne_of_gt hlh)).symm
      _ ≤ (⌈nominalSectionHeight / lh⌉ : ℚ) * lh :=
        mul_le_mul_of_nonneg_right (Int.le_ceil _) hlh.le
  · intro table name st st2 fn h
    exact loadPreset_ok_elim h
  · intro parse st st2 fn ps h
    exact dialogAccepted_ok_elim h

/-- C2 witness at the concrete layer height 0.2. -/
theorem claim2_layer_counts_witness :
    (0 : ℚ) < 1/5 ∧
    1 ≤ baseLayersFor (1/5) ∧ nominalBaseHeight ≤ (baseLayersFor (1/5) : ℚ) * (1/5) :=
  ⟨by norm_num,
   (claim2_layer_counts (1/5) (by norm_num)).2.2.1,
   (claim2_layer_counts (1/5) (by norm_num)).2.2.2.2.1⟩

/-- C7: when the two dialog strings parse and the sectionLayers
attribute exists, postProcess returns exactly the result of the
external script applied to the g-code with the stored schedule fields
startTemperature, temperatureChange, sectionLayers and baseLayers. -/
theorem claim7_postProcess_delegates (γ : Type) (execute : γ → ℚ → ℚ → ℤ → ℤ → γ)
    (parse : String → Option ℚ) (st : ControllerState) (gcode : γ)
    (sv cv : ℚ) (sl : ℤ)
    (h1 : parse st.startTemperatureStr = some sv)
    (h2 : parse st.temperatureChangeStr = some cv)
    (h3 : st.sectionLayers = some sl) :
    postProcess execute parse st gcode =
      .ok (execute gcode st.startTemperature st.temperatureChange sl st.baseLayers) := by
  unfold postProcess
  rw [h1, h2, h3]

/-- C7 witness on a concrete state and g-code stream. -/
theorem claim7_postProcess_delegates_witness :
    parseFixture initState.startTemperatureStr = some 220 ∧
    parseFixture initState.temperatureChangeStr = some (-5) ∧
    ({ initState with sectionLayers := some 40 } : ControllerState).sectionLayers = some 40 ∧
    postProcess (fun (g : List ℕ) (_ _ : ℚ) (_ _ : ℤ) => g) parseFixture
      { initState with sectionLayers := some 40 } [1, 2, 3] = .ok [1, 2, 3] :=
  ⟨rfl, rfl, rfl,
   claim7_postProcess_delegates (List ℕ) (fun g _ _ _ _ => g) parseFixture
     { initState with sectionLayers := some 40 } [1, 2, 3] 220 (-5) 40 rfl rfl rfl⟩

/-- C9: postProcess parses the two dialog strings before doing anything
else, so whenever either string fails to parse it raises ValueError, for
every g-code input and stored schedule, including states produced by the
preset path where those strings play no role in the output. -/
theorem claim9_postProcess_parses (γ : Type) (execute : γ → ℚ → ℚ → ℤ → ℤ → γ)
    (parse : String → Option ℚ) (st : ControllerState) (gcode : γ)
    (h : parse st.startTemperatureStr = none ∨ parse st.temperatureChangeStr = none) :
    postProcess execute parse st gcode = .raised .valueError st := by
  rcases h with h | h
  · unfold postProcess
    rw [h]
  · unfold postProcess
    rcases hps : parse st.startTemperatureStr with _ | v
    · rfl
    · rw [h]

/-- C9 witness with a parser that rejects every string. -/
theorem claim9_postProcess_parses_witness :
    ((fun _ : String => (none : Option ℚ)) initState.startTemperatureStr = none ∨
      (fun _ : String => (none : Option ℚ)) initState.temperatureChangeStr = none) ∧
    postProcess (fun (g : List ℕ) (_ _ : ℚ) (_ _ : ℤ) => g) (fun _ => none)
      initState [1] = .raised .valueError initState :=
  ⟨Or.inl rfl,
   claim9_postProcess_parses (List ℕ) (fun g _ _ _ _ => g) (fun _ => none)
     initState [1] (Or.inl rfl)⟩

/-- C10: the constructor initialises startTemperature, temperatureChange
and baseLayers to 0 but never creates sectionLayers; that attribute only
comes to exist when loadPreset or dialogAccepted completes its layer
computation, so postProcess on a fresh controller raises
AttributeError instead of returning a rewritten stream. -/
theorem claim10_missing_attribute (γ : Type) (execute : γ → ℚ → ℚ → ℤ → ℤ → γ)
    (parse : String → Option ℚ) (gcode : γ) (sv cv : ℚ)
    (h1 : parse initState.startTemperatureStr = some sv)
    (h2 : parse initState.temperatureChangeStr = some cv) :
    initState.startTemperature = 0 ∧ initState.temperatureChange = 0 ∧
    initState.baseLayers = 0 ∧ initState.sectionLayers = none ∧
    postProcess execute parse initState gcode = .raised .attributeError initState ∧
    (∀ (table : List (String × PresetEntry)) (name : String) (lh : ℚ)
       (st st2 : ControllerState) (fn : String),
       loadPreset table name lh st = .ok st2 fn →
       st2.sectionLayers = some (sectionLayersFor lh)) ∧
    (∀ (lh : ℚ) (st st2 : ControllerState) (fn : String)
       (ps : List (String × ScadValue)),
       dialogAccepted parse lh st = .ok (st2, fn, ps) →
       st2.sectionLayers = some (sectionLayersFor lh)) := by
  refine ⟨rfl, rfl, rfl, rfl, ?_, ?_, ?_⟩
  · unfold postProcess
    rw [h1, h2]
    rfl
  · intro table name lh st st2 fn h
    exact (loadPreset_ok_elim h).2
  · intro lh st st2 fn ps h
    exact (dialogAccepted_ok_elim h).2

/-- C10 witness on a fresh controller with the default dialog strings. -/
theorem claim10_missing_attribute_witness :
    parseFixture initState.startTemperatureStr = some 220 ∧
    parseFixture initState.temperatureChangeStr = some (-5) ∧
    postProcess (fun (g : List ℕ) (_ _ : ℚ) (_ _ : ℤ) => g) parseFixture
      initState [1] = .raised .attributeError initState :=
  ⟨rfl, rfl,
   (claim10_missing_attribute (List ℕ) (fun g _ _ _ _ => g) parseFixture
     [1] 220 (-5) rfl rfl).2.2.2.2.1⟩

/-- C1 counterexample: with the negative layer height -0.2 the preset
path does not fail at all — it succeeds and stores a schedule with
baseLayers -4 and sectionLayers -40, refuting the claim that every
non-positive layer height fails with InvalidGeometry with no schedule
constructed or stored. -/
theorem claim1_counterexample :
    loadPreset presetTables "pla" (-(1/5)) initState =
      .ok { initState with
              startTemperature := 230
              temperatureChange := 5
              baseLayers := -4
              sectionLayers := some (-40) } "temptower-pla.stl" ∧
    (some (-40 : ℤ) ≠ (none : Option ℤ)) := by
  constructor
  · with_unfolding_all decide
  · simp

/-- C1 amended: the code never validates the layer height.  A zero
layer height makes both paths raise an uncaught ZeroDivisionError (on
the preset path after the start and change temperatures were already
stored, on the custom path before any state is stored); a negative
layer height makes both paths succeed and store a schedule whose base
layer count is non-positive.  No InvalidGeometry failure exists. -/
theorem claim1_amended (parse : String → Option ℚ) (st : ControllerState)
    (lh s e c : ℚ)
    (hs : parse st.startTemperatureStr = some s)
    (he : parse st.endTemperatureStr = some e)
    (hc : parse st.temperatureChangeStr = some c)
    (hlh : lh < 0) :
    dialogAccepted parse 0 st = .raised .zeroDivisionError st ∧
    loadPreset presetTables "pla" 0 st =
      .raised .zeroDivisionError
        { st with startTemperature := 230, temperatureChange := 5 } ∧
    (∃ st2 ps, dialogAccepted parse lh st = .ok (st2, openScadFilename, ps) ∧
       st2.baseLayers = baseLayersFor lh ∧
       st2.sectionLayers = some (sectionLayersFor lh)) ∧
    (∃ st2, loadPreset presetTables "pla" lh st = .ok st2 "temptower-pla.stl" ∧
       st2.baseLayers = baseLayersFor lh ∧
       st2.sectionLayers = some (sectionLayersFor lh)) ∧
    baseLayersFor lh ≤ 0 := by
  have hlook : presetTables.lookup "pla" =
      some ⟨some "temptower-pla.stl", some 230, some 5⟩ := by
    with_unfolding_all decide
  have hne : lh ≠ 0 := ne_of_lt hlh
  refine ⟨?_, ?_, ?_, ?_, ?_⟩
  · unfold dialogAccepted
    rw [hs, he, hc]
    simp
  · rw [loadPreset_complete 0 st hlook, if_pos rfl]
  · unfold dialogAccepted
    simp only [hs, he, hc]
    rw [if_neg hne]
    exact ⟨_, _, rfl, rfl, rfl⟩
  · rw [loadPreset_complete lh st hlook, if_neg hne]
    exact ⟨_, rfl, rfl, rfl⟩
  · unfold baseLayersFor
    rw [Int.ceil_le]
    rw [show ((0 : ℤ) : ℚ) = 0 from rfl]
    rw [div_nonpos_iff]
    left
    exact ⟨by norm_num [nominalBaseHeight], hlh.le⟩

/-- C1 amended witness at layer height -0.2 on a fresh controller. -/
theorem claim1_amended_witness :
    parseFixture initState.startTemperatureStr = some 220 ∧
    parseFixture initState.endTemperatureStr = some 180 ∧
    parseFixture initState.temperatureChangeStr = some (-5) ∧
    (-(1/5) : ℚ) < 0 ∧
    dialogAccepted parseFixture 0 initState = .raised .zeroDivisionError initState :=
  ⟨rfl, rfl, rfl, by norm_num,
   (claim1_amended parseFixture initState (-(1/5)) 220 180 (-5) rfl rfl rfl
     (by norm_num)).1⟩

/-- C3 counterexample: with equal start and end temperatures (200 and
200) and requested change 5, dialogAccepted stores temperatureChange 5,
not 0, refuting the claim that the stored change is exactly 0 when the
end temperature equals the start temperature. -/
theorem claim3_counterexample :
    parseFixture cexState3.startTemperatureStr = some 200 ∧
    parseFixture cexState3.endTemperatureStr = some 200 ∧
    parseFixture cexState3.temperatureChangeStr = some 5 ∧
    resultTemperatureChange (dialogAccepted parseFixture (1/5) cexState3) = some 5 ∧
    (5 : ℚ) ≠ 0 := by
  refine ⟨rfl, rfl, rfl, ?_, by norm_num⟩
  with_unfolding_all decide

/-- C3 amended: the stored change is abs of the requested magnitude
when end is at least start (including equality, where it is therefore
positive for a non-zero request) and minus that abs when end is below
start; its absolute value always equals the absolute value of the
request, and for a non-zero request with distinct temperatures its sign
matches the sign of end minus start. -/
theorem claim3_amended (parse : String → Option ℚ) (lh : ℚ)
    (st : ControllerState) (s e c : ℚ)
    (hs : parse st.startTemperatureStr = some s)
    (he : parse st.endTemperatureStr = some e)
    (hc : parse st.temperatureChangeStr = some c)
    (hlh : lh ≠ 0) :
    ∃ st2 ps, dialogAccepted parse lh st = .ok (st2, openScadFilename, ps) ∧
      st2.temperatureChange = (if s ≤ e then |c| else -|c|) ∧
      |st2.temperatureChange| = |c| ∧
      (s ≤ e → 0 ≤ st2.temperatureChange) ∧
      (e < s → st2.temperatureChange ≤ 0) ∧
      (c ≠ 0 → s < e → 0 < st2.temperatureChange) ∧
      (c ≠ 0 → e < s → st2.temperatureChange < 0) := by
  unfold dialogAccepted
  simp only [hs, he, hc]
  rw [if_neg hlh]
  refine ⟨_, _, rfl, rfl, ?_, ?_, ?_, ?_, ?_⟩
  · by_cases h : s ≤ e
    · rw [if_pos h, abs_abs]
    · rw [if_neg h, abs_neg, abs_abs]
  · intro h
    rw [if_pos h]
    exact abs_nonneg c
  · intro h
    rw [if_neg (not_le.mpr h)]
    exact neg_nonpos.mpr (abs_nonneg c)
  · intro hc0 h
    rw [if_pos h.le]
    exact abs_pos.mpr hc0
  · intro hc0 h
    rw [if_neg (not_le.mpr h)]
    exact neg_neg_iff_pos.mpr (abs_pos.mpr hc0)

/-- C3 amended witness: start 220, end 180 (falling), request -5. -/
theorem claim3_amended_witness :
    parseFixture initState.startTemperatureStr = some 220 ∧
    parseFixture initState.endTemperatureStr = some 180 ∧
    parseFixture initState.temperatureChangeStr = some (-5) ∧
    ((1/5 : ℚ) ≠ 0) ∧
    (∃ st2 ps, dialogAccepted parseFixture (1/5) initState = .ok (st2, openScadFilename, ps) ∧
      st2.temperatureChange = (if (220 : ℚ) ≤ 180 then |(-5 : ℚ)| else -|(-5 : ℚ)|) ∧
      |st2.temperatureChange| = |(-5 : ℚ)| ∧
      ((220 : ℚ) ≤ 180 → 0 ≤ st2.temperatureChange) ∧
      ((180 : ℚ) < 220 → st2.temperatureChange ≤ 0) ∧
      ((-5 : ℚ) ≠ 0 → (220 : ℚ) < 180 → 0 < st2.temperatureChange) ∧
      ((-5 : ℚ) ≠ 0 → (180 : ℚ) < 220 → st2.temperatureChange < 0)) :=
  ⟨rfl, rfl, rfl, by norm_num,
   claim3_amended parseFixture (1/5) initState 220 180 (-5) rfl rfl rfl (by norm_num)⟩

/-- C8: on the custom path the parameter mapping sent to the geometry
generator has exactly the seven keys in order, with the parsed start
and end temperatures, the sign-corrected change, base and section
heights equal to the layer counts times the layer height, and the two
dialog label strings. -/
theorem claim8_openscad_parameters (parse : String → Option ℚ) (lh : ℚ)
    (st : ControllerState) (s e c : ℚ)
    (hs : parse st.startTemperatureStr = some s)
    (he : parse st.endTemperatureStr = some e)
    (hc : parse st.temperatureChangeStr = some c)
    (hlh : lh ≠ 0) :
    ∃ st2, dialogAccepted parse lh st = .ok (st2, openScadFilename,
      [ ("Starting_Value", ScadValue.num s)
      , ("Ending_Value", ScadValue.num e)
      , ("Value_Change", ScadValue.num (if s ≤ e then |c| else -|c|))
      , ("Base_Height", ScadValue.num ((baseLayersFor lh : ℚ) * lh))
      , ("Section_Height", ScadValue.num ((sectionLayersFor lh : ℚ) * lh))
      , ("Column_Label", ScadValue.str st.materialLabelStr)
      , ("Tower_Label", ScadValue.str st.towerDescriptionStr) ]) := by
  unfold dialogAccepted
  simp only [hs, he, hc]
  rw [if_neg hlh]
  exact ⟨_, rfl⟩

/-- C8 witness on a fresh controller at layer height 0.2. -/
theorem claim8_openscad_parameters_witness :
    parseFixture initState.startTemperatureStr = some 220 ∧
    parseFixture initState.endTemperatureStr = some 180 ∧
    parseFixture initState.temperatureChangeStr = some (-5) ∧
    ((1/5 : ℚ) ≠ 0) ∧
    (∃ st2, dialogAccepted parseFixture (1/5) initState = .ok (st2, openScadFilename,
      [ ("Starting_Value", ScadValue.num 220)
      , ("Ending_Value", ScadValue.num 180)
      , ("Value_Change", ScadValue.num (if (220 : ℚ) ≤ 180 then |(-5 : ℚ)| else -|(-5 : ℚ)|))
      , ("Base_Height", ScadValue.num ((baseLayersFor (1/5) : ℚ) * (1/5)))
      , ("Section_Height", ScadValue.num ((sectionLayersFor (1/5) : ℚ) * (1/5)))
      , ("Column_Label", ScadValue.str initState.materialLabelStr)
      , ("Tower_Label", ScadValue.str initState.towerDescriptionStr) ])) :=
  ⟨rfl, rfl, rfl, by norm_num,
   claim8_openscad_parameters parseFixture (1/5) initState 220 180 (-5) rfl rfl rfl
     (by norm_num)⟩

/-- C4 counterexample: on the 84-layer stream with baseLayers 4 and
sectionLayers 40 the Rewriter injects 86 - 84 = 2 temperature-set
instructions, while the claimed formula floor((L - baseLayers) /
sectionLayers) + 1 gives (84 - 4) / 40 + 1 = 3, so the formula
contradicts the concrete scenario asserted by the same claim. -/
theorem claim4_counterexample :
    Except.map List.length (rewrite schedule84 stream84) = Except.ok 86 ∧
    stream84.length = 84 ∧ layerCount stream84 = 84 ∧
    schedule84.baseLayers = 4 ∧ schedule84.sectionLayers = 40 ∧
    86 - 84 ≠ (84 - 4) / 40 + 1 := by
  refine ⟨?_, ?_, ?_, rfl, rfl, by norm_num⟩
  · with_unfolding_all decide
  · with_unfolding_all decide
  · with_unfolding_all decide

/-- C4 amended: for a stream containing at least one layer-boundary
marker, the number of injected temperature-set instructions is
floor((L - baseLayers - 1) / sectionLayers) + 1 when L > baseLayers and
0 otherwise (the ceiling of (L - baseLayers) / sectionLayers, one per
section start below L); in the concrete case layerHeight 0.2, start
230, change -5, an 84-layer stream receives exactly two injections, at
layer 4 with value 230 and at layer 44 with value 225. -/
theorem claim4_amended :
    (∀ (sched : TowerSchedule) (stream : List GLine),
       1 ≤ layerCount stream →
       ∃ out, rewrite sched stream = Except.ok out ∧
         out.length = stream.length +
           (if sched.baseLayers < layerCount stream then
              (layerCount stream - sched.baseLayers - 1) / sched.sectionLayers + 1
            else 0) ∧
         out.countP isTempSet = stream.countP isTempSet +
           (if sched.baseLayers < layerCount stream then
              (layerCount stream - sched.baseLayers - 1) / sched.sectionLayers + 1
            else 0)) ∧
    rewrite schedule84 stream84 = Except.ok expected84 ∧
    baseLayersFor (1/5) = 4 ∧ sectionLayersFor (1/5) = 40 ∧
    schedule84 = ⟨4, 40, 230, -5⟩ := by
  refine ⟨?_, ?_, ?_, ?_, rfl⟩
  · intro sched stream hL
    refine ⟨rewriteAux sched stream 0, ?_, ?_, ?_⟩
    · unfold rewrite
      rw [if_neg (by omega)]
    · rw [rewriteAux_length, countHits_closed]
    · rw [rewriteAux_countTempSet, countHits_closed]
  · with_unfolding_all decide
  · with_unfolding_all decide
  · with_unfolding_all decide

/-- C4 amended witness at the concrete 84-layer stream. -/
theorem claim4_amended_witness :
    1 ≤ layerCount stream84 ∧
    (∃ out, rewrite schedule84 stream84 = Except.ok out ∧
      out.length = stream84.length +
        (if schedule84.baseLayers < layerCount stream84 then
           (layerCount stream84 - schedule84.baseLayers - 1) / schedule84.sectionLayers + 1
         else 0) ∧
      out.countP isTempSet = stream84.countP isTempSet +
        (if schedule84.baseLayers < layerCount stream84 then
           (layerCount stream84 - schedule84.baseLayers - 1) / schedule84.sectionLayers + 1
         else 0)) :=
  ⟨by with_unfolding_all decide,
   claim4_amended.1 schedule84 stream84 (by with_unfolding_all decide)⟩

/-- C5 counterexample: a recognized entry whose change value is missing
makes the loader abort only after the start temperature has already
been overwritten, so the controller state is not left exactly as it was
before the call. -/
theorem claim5_counterexample :
    loadPreset cexTable5 "x" (1/5) initState =
      .aborted (.incompleteEntry "x" "change value")
        { initState with startTemperature := 200 } ∧
    ({ initState with startTemperature := 200 } : ControllerState).startTemperature ≠
      initState.startTemperature := by
  constructor
  · with_unfolding_all decide
  · norm_num [initState]

/-- C5 amended: every loader failure is reported with its offending key
and abandons the request without invoking the load callback (the result
is never the ok outcome), and the state is left untouched on an unknown
preset, a missing filename or a missing start value; but on a missing
change value the start temperature has already been overwritten with
the start value of the preset before the abort. -/
theorem claim5_amended (table : List (String × PresetEntry)) (name : String)
    (lh : ℚ) (st : ControllerState) (entry : PresetEntry) :
    (table.lookup name = none →
       loadPreset table name lh st = .aborted (.unknownPreset name) st) ∧
    (table.lookup name = some entry → entry.filename = none →
       loadPreset table name lh st = .aborted (.incompleteEntry name "filename") st) ∧
    (∀ fn, table.lookup name = some entry → entry.filename = some fn →
       entry.startValue = none →
       loadPreset table name lh st = .aborted (.incompleteEntry name "start value") st) ∧
    (∀ fn sv, table.lookup name = some entry → entry.filename = some fn →
       entry.startValue = some sv → entry.changeValue = none →
       loadPreset table name lh st =
         .aborted (.incompleteEntry name "change value")
           { st with startTemperature := sv }) ∧
    (∀ err st2 st3 fn, loadPreset table name lh st = .aborted err st2 →
       loadPreset table name lh st ≠ .ok st3 fn) := by
  refine ⟨?_, ?_, ?_, ?_, ?_⟩
  · intro h
    unfold loadPreset
    simp only [h]
  · intro h hf
    unfold loadPreset
    simp only [h, hf]
  · intro fn h hf hsv
    unfold loadPreset
    simp only [h, hf, hsv]
  · intro fn sv h hf hsv hcv
    unfold loadPreset
    simp only [h, hf, hsv, hcv]
  · intro err st2 st3 fn habort hok
    rw [habort] at hok
    exact absurd hok (by simp)

/-- C5 amended witness: the unknown preset wood aborts and mutates
nothing. -/
theorem claim5_amended_witness :
    presetTables.lookup "wood" = none ∧
    loadPreset presetTables "wood" (1/5) initState =
      .aborted (.unknownPreset "wood") initState :=
  ⟨by with_unfolding_all decide,
   (claim5_amended presetTables "wood" (1/5) initState ⟨none, none, none⟩).1
     (by with_unfolding_all decide)⟩

/-- C6: the lookup fails with unknownPreset exactly when the name is
not a key of the table (exact string match), fails with
incompleteEntry naming a genuinely missing field exactly when the name
is recognized but a required field is absent, and otherwise yields the
three field values; the abort errors of the loader are exactly the lookup
errors. -/
theorem claim6_lookup_contract (table : List (String × PresetEntry)) (name : String) :
    (lookupPreset table name = .error (.unknownPreset name) ↔
       table.lookup name = none) ∧
    ((∃ f, lookupPreset table name = .error (.incompleteEntry name f)) ↔
       (∃ e, table.lookup name = some e ∧
          (e.filename = none ∨ e.startValue = none ∨ e.changeValue = none))) ∧
    (∀ f, lookupPreset table name = .error (.incompleteEntry name f) →
       ∃ e, table.lookup name = some e ∧
         ((f = "filename" ∧ e.filename = none) ∨
          (f = "start value" ∧ e.startValue = none) ∨
          (f = "change value" ∧ e.changeValue = none))) ∧
    (∀ e fn sv cv, table.lookup name = some e → e.filename = some fn →
       e.startValue = some sv → e.changeValue = some cv →
       lookupPreset table name = .ok (fn, sv, cv)) ∧
    (∀ (lh : ℚ) (st : ControllerState) (err : PresetError),
       (∃ st2, loadPreset table name lh st = .aborted err st2) ↔
       lookupPreset table name = .error err) := by
  refine ⟨?_, ?_, ?_, ?_, ?_⟩
  · rcases hl : table.lookup name with _ | ⟨fo, so, co⟩
    · simp [lookupPreset, hl]
    · rcases fo with _ | fn <;> rcases so with _ | sv <;> rcases co with _ | cv <;>
        simp [lookupPreset, hl]
  · rcases hl : table.lookup name with _ | ⟨fo, so, co⟩
    · simp [lookupPreset, hl]
    · rcases fo with _ | fn <;> rcases so with _ | sv <;> rcases co with _ | cv <;>
        simp [lookupPreset, hl]
  · intro f hf
    rcases hl : table.lookup name with _ | ⟨fo, so, co⟩
    · simp [lookupPreset, hl] at hf
    · rcases fo with _ | fn <;> rcases so with _ | sv <;> rcases co with _ | cv <;>
        simp [lookupPreset, hl] at hf
      · exact ⟨_, rfl, Or.inl ⟨by simp [hf], rfl⟩⟩
      · exact ⟨_, rfl, Or.inl ⟨by simp [hf], rfl⟩⟩
      · exact ⟨_, rfl, Or.inl ⟨by simp [hf], rfl⟩⟩
      · exact ⟨_, rfl, Or.inl ⟨by simp [hf], rfl⟩⟩
      · exact ⟨_, rfl, Or.inr (Or.inl ⟨by simp [hf], rfl⟩)⟩
      · exact ⟨_, rfl, Or.inr (Or.inl ⟨by simp [hf], rfl⟩)⟩
      · exact ⟨_, rfl, Or.inr (Or.inr ⟨by simp [hf], rfl⟩)⟩
  · intro e fn sv cv he hf hsv hcv
    simp [lookupPreset, he, hf, hsv, hcv]
  · intro lh st err
    rcases hl : table.lookup name with _ | ⟨fo, so, co⟩
    · simp [loadPreset, lookupPreset, hl]
    · rcases fo with _ | fn <;> rcases so with _ | sv <;> rcases co with _ | cv <;>
        simp [loadPreset, lookupPreset, hl]
      all_goals intros
      all_goals split <;> simp_all

/-- C6 witness: the complete pla entry is looked up successfully. -/
theorem claim6_lookup_contract_witness :
    presetTables.lookup "pla" =
      some ⟨some "temptower-pla.stl", some 230, some 5⟩ ∧
    lookupPreset presetTables "pla" = .ok ("temptower-pla.stl", 230, 5) :=
  ⟨by with_unfolding_all decide,
   (claim6_lookup_contract presetTables "pla").2.2.2.1
     ⟨some "temptower-pla.stl", some 230, some 5⟩ "temptower-pla.stl" 230 5
     (by with_unfolding_all decide) rfl rfl rfl⟩

end TempTower
